import Mathlib

/-!
Verification development for the `reply` Go library (github.com/ooaklee/reply),
a response-shaping utility for HTTP API servers.

The embedding is shallow: Go structs become Lean structures, Go maps become
unique-key association lists, pointer-threaded mutation becomes explicit state
passing, and the `http.ResponseWriter` transport is modelled by the observable
state it accumulates (header map, the code passed to `WriteHeader`, the encoded
JSON body) together with net/http's panic on an invalid status code.

Two engine revisions are embedded:
* namespace `Reply` — the revision present in `src/replier.go` (the section with
  the token-aide validation and the fixed manifest merge) together with the
  matching transfer-object model of `src/model.go` (the `TransferObjectStatus`
  based envelope).
* namespace `ReplyMulti` — the later engine with the multi-error branch.  Its
  data model (`ErrorManifestItem` with Title/Detail/About/Code/Meta, the
  `defaultReplyTransferObjectError` entry type and the errors-carrying
  envelope) is taken from `src/model.go`; the engine functions that are not
  under `src/` (only their tests and callers are) carry doc comments starting
  `Modelled from the spec:`.
-/

/-- JSON values, as produced by `encoding/json` on the library's transfer
objects.  Object fields are kept in the order `encoding/json` emits them
(struct-field order for structs, sorted keys for maps). -/
inductive Json where
  | str (s : String)
  | num (n : Int)
  | bool (b : Bool)
  | null
  | arr (elems : List Json)
  | obj (fields : List (String × Json))
  deriving Repr

/-- A Go `error` value: an identity (so that two distinct error values may
render to the same string) plus the string its `Error()` method returns. -/
structure GoError where
  id : Nat
  msg : String
  deriving Repr

/-- `err.Error()` — the rendered message string of a Go error. -/
def GoError.Error (e : GoError) : String := e.msg

/-- One step of `textproto.CanonicalMIMEHeaderKey`: uppercase the first letter
and every letter following a hyphen, lowercase the rest. -/
def canonicalKeyAux : Bool → List Char → List Char
  | _, [] => []
  | upper, c :: rest =>
    if c = '-' then c :: canonicalKeyAux true rest
    else (if upper then c.toUpper else c.toLower) :: canonicalKeyAux false rest

/-- `textproto.CanonicalMIMEHeaderKey`, as used by `http.Header.Get/Set`
(restricted to keys made of ordinary token characters, the only ones the
library and its tests use). -/
def canonicalMIMEHeaderKey (s : String) : String :=
  String.mk (canonicalKeyAux true s.data)

/-- An `http.Header` map: association list keyed by canonical header keys. -/
abbrev HeaderMap := List (String × String)

/-- `http.Header.Set`: replaces any existing value under the canonical key. -/
def headerSet (h : HeaderMap) (key value : String) : HeaderMap :=
  let ck := canonicalMIMEHeaderKey key
  h.filter (fun p => p.1 ≠ ck) ++ [(ck, value)]

/-- `http.Header.Get`: returns the empty string when the key is absent. -/
def headerGet (h : HeaderMap) (key : String) : String :=
  let ck := canonicalMIMEHeaderKey key
  match h.find? (fun p => p.1 = ck) with
  | some p => p.2
  | none => ""

/-- Observable state of an `http.ResponseWriter`: its header map, the status
code passed to `WriteHeader` (if reached), and the JSON-encoded body. -/
structure WriterState where
  headers : HeaderMap := []
  wroteStatus : Option Int := none
  body : Option Json := none
  deriving Repr

/-- Result of one response call: the Go error value returned by the function
together with the final transport state.  `WriteHeader` with a code outside
[100,999] panics inside net/http (it is not reported as an error value), which
the `panicked` constructor records along with the transport state at the point
of the panic. -/
inductive HTTPOutcome where
  | ok (w : WriterState)
  | errReturn (msg : String) (w : Option WriterState)
  | panicked (code : Int) (w : WriterState)
  deriving Repr

/-- The writer state carried by an outcome, when the call ever held a writer. -/
def HTTPOutcome.writer : HTTPOutcome → Option WriterState
  | .ok w => some w
  | .errReturn _ w => w
  | .panicked _ w => some w

/-- The code handed to `ResponseWriter.WriteHeader`, when that call happened
(`ok` writes it into the state, `panicked` rejects it). -/
def HTTPOutcome.writeHeaderArg : HTTPOutcome → Option Int
  | .ok w => w.wroteStatus
  | .errReturn _ _ => none
  | .panicked c _ => some c

/-- net/http `checkWriteHeaderCode`: a status code is writable iff it lies in
[100, 999]; otherwise `WriteHeader` panics. -/
def checkWriteHeaderCode (code : Int) : Bool :=
  decide (100 ≤ code ∧ code ≤ 999)

/-- Go-map lookup on a unique-key association list. -/
def mapLookup {α : Type} (m : List (String × α)) (k : String) : Option α :=
  (m.find? (fun p => p.1 = k)).map Prod.snd

/-- Go-map insertion `m[k] = v`: replaces any existing binding of `k`. -/
def mapInsert {α : Type} (m : List (String × α)) (k : String) (v : α) :
    List (String × α) :=
  m.filter (fun p => p.1 ≠ k) ++ [(k, v)]

/-- `getManifestItems` (src/replier.go): pulls every key/item from the manifest
and inserts it into the final manifest. -/
def getManifestItems {α : Type} (manifest finalManifest : List (String × α)) :
    List (String × α) :=
  manifest.foldl (fun acc p => mapInsert acc p.1 p.2) finalManifest

/-- `mergeManifestCollections` (src/replier.go): merges the passed manifests
into a singular manifest, in order. -/
def mergeManifestCollections {α : Type} (manifests : List (List (String × α))) :
    List (String × α) :=
  manifests.foldl (fun merged m => getManifestItems m merged) []

/-- `defaultResponseBody` (src/replier.go): the literal two-character default
body string. -/
def defaultResponseBody : String := "\x7b\x7d"

/-- `defaultStatusCode` (src/replier.go): `http.StatusOK`. -/
def defaultStatusCode : Int := 200

/-- `setDefaultContentType` (src/replier.go): sets the JSON content type on
the writer only when no content type is present yet. -/
def setDefaultContentType (w : WriterState) : WriterState :=
  if headerGet w.headers "Content-type" = "" then
    { w with headers := headerSet w.headers "Content-type" "application/json" }
  else w

/-- `setHeaders` (src/replier.go): applies the content-type default, then
overlays the caller-supplied headers onto the writer via `Header().Set`. -/
def setHeaders (w : WriterState) (h : Option HeaderMap) : WriterState :=
  let w := setDefaultContentType w
  match h with
  | none => w
  | some hs =>
    { w with headers := hs.foldl (fun acc p => headerSet acc p.1 p.2) w.headers }

/-- Decimal digit accumulation for `strconv.Atoi`: fails on any non-digit. -/
def digitsToNatAux : Nat → List Char → Option Nat
  | acc, [] => some acc
  | acc, c :: rest =>
    if '0' ≤ c ∧ c ≤ '9' then digitsToNatAux (acc * 10 + (c.toNat - 48)) rest
    else none

/-- Go `strconv.Atoi` (sign handling and digit parsing; the int64 overflow
bound is irrelevant at the magnitudes the library handles): `none` models a
returned error. -/
def strconvAtoi (s : String) : Option Int :=
  match s.data with
  | [] => none
  | '-' :: ds =>
    if ds.isEmpty then none
    else (digitsToNatAux 0 ds).map (fun n => -(n : Int))
  | '+' :: ds =>
    if ds.isEmpty then none
    else (digitsToNatAux 0 ds).map (fun n => (n : Int))
  | ds => (digitsToNatAux 0 ds).map (fun n => (n : Int))

/-- Ordered-key rendering of a Go `map[string]interface` under
`encoding/json`: keys are emitted in sorted order. -/
def insertSortedField (p : String × Json) :
    List (String × Json) → List (String × Json)
  | [] => [p]
  | q :: rest => if p.1 ≤ q.1 then p :: q :: rest else q :: insertSortedField p rest

/-- Sort a field list by key, as `encoding/json` does for maps. -/
def sortFieldsByKey (l : List (String × Json)) : List (String × Json) :=
  l.foldr insertSortedField []

/-- Render a meta map as its JSON object. -/
def metaToJson (meta : List (String × Json)) : Json :=
  Json.obj (sortFieldsByKey meta)

namespace Reply

/-- `Error` (src/model.go): code and details of one error inside a
`TransferObjectStatus`; both fields are always serialized. -/
structure Error where
  Code : String := ""
  Details : String := ""
  deriving Repr

/-- `TransferObjectStatus` (src/model.go): errors and message, both
omitempty. -/
structure TransferObjectStatus where
  Errors : List Error := []
  Message : String := ""
  deriving Repr

/-- `TransferObjectStatus.SetMessage`. -/
def TransferObjectStatus.SetMessage (s : TransferObjectStatus) (message : String) :
    TransferObjectStatus :=
  { s with Message := message }

/-- JSON marshalling of a `TransferObjectStatus` per its struct tags. -/
def TransferObjectStatus.toJson (s : TransferObjectStatus) : Json :=
  Json.obj
    ((if s.Errors.isEmpty then [] else
      [("errors", Json.arr (s.Errors.map (fun e =>
        Json.obj [("code", Json.str e.Code), ("details", Json.str e.Details)])))]) ++
     (if s.Message = "" then [] else [("message", Json.str s.Message)]))

/-- `ErrorManifestItem` (src/model.go): message and status code for an error
response. -/
structure ErrorManifestItem where
  Message : String := ""
  StatusCode : Int := 0
  deriving Repr

/-- `ErrorManifest` (src/model.go): error reference string to manifest item. -/
abbrev ErrorManifest := List (String × ErrorManifestItem)

/-- `defaultReplyTransferObject` (src/model.go).  The `HTTPWriter` field is
threaded as explicit state by the engine functions instead of being stored;
the `Headers` field is never read by the engine and is dropped.  JSON field
order follows the struct: status, meta, data, access_token, refresh_token. -/
structure defaultReplyTransferObject where
  StatusCode : Int := 0
  Status : Option TransferObjectStatus := none
  Meta : Option (List (String × Json)) := none
  Data : Option Json := none
  AccessToken : String := ""
  RefreshToken : String := ""
  deriving Repr

/-- JSON marshalling of the default transfer object per its struct tags
(`StatusCode` is tagged `-`; every serialized field is omitempty). -/
def defaultReplyTransferObject.toJson (t : defaultReplyTransferObject) : Json :=
  Json.obj
    ((match t.Status with
      | some s => [("status", s.toJson)]
      | none => []) ++
     (match t.Meta with
      | some m => if m.isEmpty then [] else [("meta", metaToJson m)]
      | none => []) ++
     (match t.Data with
      | some d => [("data", d)]
      | none => []) ++
     (if t.AccessToken = "" then [] else [("access_token", Json.str t.AccessToken)]) ++
     (if t.RefreshToken = "" then [] else [("refresh_token", Json.str t.RefreshToken)]))

/-- `NewResponseRequest` (src/replier.go): attributes for a response.  The
writer is carried together with its pre-existing transport state (`none`
models a nil writer). -/
structure NewResponseRequest where
  Writer : Option WriterState := none
  Data : Option Json := none
  Meta : Option (List (String × Json)) := none
  Headers : Option HeaderMap := none
  StatusCode : Int := 0
  Message : String := ""
  Error : Option GoError := none
  AccessToken : String := ""
  RefreshToken : String := ""
  deriving Repr

/-- `Replier` (src/replier.go): the merged manifest and the transfer object
the engine reuses as per-call scratch space (default implementation only). -/
structure Replier where
  errorManifest : ErrorManifest := []
  transferObject : defaultReplyTransferObject := {}
  deriving Repr

/-- `NewReplier` (src/replier.go): merges the manifest collection and installs
the default transfer object. -/
def NewReplier (manifests : List ErrorManifest) : Replier :=
  { errorManifest := mergeManifestCollections manifests, transferObject := {} }

/-- `getInternalServertErrorManifestItem` (src/replier.go): the fixed 500
fallback item. -/
def getInternalServertErrorManifestItem : ErrorManifestItem :=
  { Message := "Internal Server Error", StatusCode := 500 }

/-- `setUniversalAttributes` (src/replier.go): headers onto the writer, meta
onto the transfer object, then the explicit status code if non-zero, else the
default 200. -/
def setUniversalAttributes (tObj : defaultReplyTransferObject) (w : WriterState)
    (headers : Option HeaderMap) (meta : Option (List (String × Json)))
    (statusCode : Int) : defaultReplyTransferObject × WriterState :=
  let w := setHeaders w headers
  let tObj := { tObj with Meta := meta }
  let tObj :=
    if statusCode ≠ 0 then { tObj with StatusCode := statusCode }
    else { tObj with StatusCode := defaultStatusCode }
  (tObj, w)

/-- `sendHTTPResponse` (src/replier.go): `WriteHeader` with the transfer
object's status code, then JSON-encode the transfer object onto the writer. -/
def sendHTTPResponse (w : WriterState) (transferObject : defaultReplyTransferObject) :
    HTTPOutcome :=
  if checkWriteHeaderCode transferObject.StatusCode then
    HTTPOutcome.ok
      { w with wroteStatus := some transferObject.StatusCode,
               body := some transferObject.toJson }
  else HTTPOutcome.panicked transferObject.StatusCode w

/-- `generateDefaultResponse` (src/replier.go, the revision that leaves the
universally-set status code in place): data becomes the literal default body. -/
def generateDefaultResponse (tObj : defaultReplyTransferObject) (w : WriterState) :
    HTTPOutcome × defaultReplyTransferObject :=
  let tObj := { tObj with Data := some (Json.str defaultResponseBody) }
  (sendHTTPResponse w tObj, tObj)

/-- `generateDataResponse` (src/replier.go). -/
def generateDataResponse (tObj : defaultReplyTransferObject) (w : WriterState)
    (data : Json) : HTTPOutcome × defaultReplyTransferObject :=
  let tObj := { tObj with Data := some data }
  (sendHTTPResponse w tObj, tObj)

/-- `generateTokenResponse` (src/replier.go). -/
def generateTokenResponse (tObj : defaultReplyTransferObject) (w : WriterState)
    (accessToken refreshToken : String) : HTTPOutcome × defaultReplyTransferObject :=
  let tObj := { tObj with AccessToken := accessToken, RefreshToken := refreshToken }
  (sendHTTPResponse w tObj, tObj)

/-- `generateErrorResponse` (src/replier.go): manifest lookup on
`err.Error()`, fall back to the fixed 500 item on a miss, overwrite the
status code with the item's status code, attach the status message. -/
def generateErrorResponse (manifest : ErrorManifest)
    (tObj : defaultReplyTransferObject) (w : WriterState) (err : GoError) :
    HTTPOutcome × defaultReplyTransferObject :=
  let manifestItem :=
    match mapLookup manifest err.Error with
    | some item => item
    | none => getInternalServertErrorManifestItem
  let transferObjectStatus := TransferObjectStatus.SetMessage {} manifestItem.Message
  let tObj :=
    { tObj with
      StatusCode := manifestItem.StatusCode
      Status := some transferObjectStatus }
  (sendHTTPResponse w tObj, tObj)

/-- `NewHTTPResponse` (src/replier.go): validate the writer, refresh the
transfer object, apply universal attributes, then branch by precedence
error, token, data, default.  Returns the Go result together with the
post-call replier (whose transfer-object field the source reassigns). -/
def NewHTTPResponse (r : Replier) (response : NewResponseRequest) :
    HTTPOutcome × Replier :=
  match response.Writer with
  | none =>
    (HTTPOutcome.errReturn
      "reply/http-response: failed to send response, no writer provided" none, r)
  | some w =>
    let tObj : defaultReplyTransferObject := {}
    let (tObj, w) :=
      setUniversalAttributes tObj w response.Headers response.Meta response.StatusCode
    let (outcome, tObj) :=
      match response.Error with
      | some err => generateErrorResponse r.errorManifest tObj w err
      | none =>
        if response.AccessToken ≠ "" ∨ response.RefreshToken ≠ "" then
          generateTokenResponse tObj w response.AccessToken response.RefreshToken
        else
          match response.Data with
          | some data => generateDataResponse tObj w data
          | none => generateDefaultResponse tObj w
    (outcome, { r with transferObject := tObj })

/-- `ResponseAttributes` (src/replier.go): per-call request modifiers. -/
abbrev ResponseAttributes := NewResponseRequest → NewResponseRequest

/-- `WithHeaders` (src/replier.go). -/
def WithHeaders (headers : HeaderMap) : ResponseAttributes :=
  fun r => { r with Headers := some headers }

/-- `WithMeta` (src/replier.go). -/
def WithMeta (meta : List (String × Json)) : ResponseAttributes :=
  fun r => { r with Meta := some meta }

/-- Application of the variadic attribute list onto a request. -/
def applyAttributes (req : NewResponseRequest) (attributes : List ResponseAttributes) :
    NewResponseRequest :=
  attributes.foldl (fun acc f => f acc) req

/-- `isEmpty` (src/replier.go). -/
def isEmpty (s : String) : Bool := s = ""

/-- `NewHTTPTokenResponse` (src/replier.go): rejects a call in which both
tokens are empty before building a request; otherwise builds the request,
applies the attributes, and delegates to `NewHTTPResponse`. -/
def NewHTTPTokenResponse (r : Replier) (w : Option WriterState) (statusCode : Int)
    (accessToken refreshToken : String) (attributes : List ResponseAttributes) :
    HTTPOutcome × Replier :=
  if isEmpty accessToken && isEmpty refreshToken then
    (HTTPOutcome.errReturn
      "reply/http-token-aide: failed at least one token must be returned" w, r)
  else
    NewHTTPResponse r
      (applyAttributes
        { Writer := w, StatusCode := statusCode,
          AccessToken := accessToken, RefreshToken := refreshToken } attributes)

end Reply

namespace ReplyMulti

/-- `ErrorManifestItem` (src/model.go, the revision with the richer error
descriptor): title, detail, status code, about-URL, internal code and meta. -/
structure ErrorManifestItem where
  Title : String := ""
  Detail : String := ""
  StatusCode : Int := 0
  About : String := ""
  Code : String := ""
  Meta : Option Json := none
  deriving Repr

/-- `ErrorManifest` (src/model.go): error reference string to manifest item. -/
abbrev ErrorManifest := List (String × ErrorManifestItem)

/-- `defaultReplyTransferObjectError` (src/model.go): one rendered error of a
response; every field is omitempty and the status code is stored as a string. -/
structure defaultReplyTransferObjectError where
  Title : String := ""
  Detail : String := ""
  About : String := ""
  Status : String := ""
  Code : String := ""
  Meta : Option Json := none
  deriving Repr

/-- `defaultReplyTransferObjectError.SetStatusCode` (src/model.go): converts
the integer status code with `strconv.Itoa` and stores the string. -/
def defaultReplyTransferObjectError.SetStatusCode
    (e : defaultReplyTransferObjectError) (status : Int) :
    defaultReplyTransferObjectError :=
  { e with Status := toString status }

/-- JSON marshalling of a transfer-object error per its struct tags: title,
detail, about, status, code, meta, each omitempty. -/
def defaultReplyTransferObjectError.toJson (e : defaultReplyTransferObjectError) :
    Json :=
  Json.obj
    ((if e.Title = "" then [] else [("title", Json.str e.Title)]) ++
     (if e.Detail = "" then [] else [("detail", Json.str e.Detail)]) ++
     (if e.About = "" then [] else [("about", Json.str e.About)]) ++
     (if e.Status = "" then [] else [("status", Json.str e.Status)]) ++
     (if e.Code = "" then [] else [("code", Json.str e.Code)]) ++
     (match e.Meta with
      | some m => [("meta", m)]
      | none => []))

/-- `defaultReplyTransferObject` (src/model.go, the errors-carrying revision).
The `HTTPWriter` and `Headers` fields are threaded as explicit state by the
engine.  JSON field order follows the struct: errors, data, access_token,
refresh_token, meta. -/
structure defaultReplyTransferObject where
  StatusCode : Int := 0
  Errors : List defaultReplyTransferObjectError := []
  Data : Option Json := none
  TokenOne : String := ""
  TokenTwo : String := ""
  Meta : Option (List (String × Json)) := none
  deriving Repr

/-- JSON marshalling of the errors-carrying transfer object per its struct
tags (`StatusCode` is tagged `-`; every serialized field is omitempty). -/
def defaultReplyTransferObject.toJson (t : defaultReplyTransferObject) : Json :=
  Json.obj
    ((if t.Errors.isEmpty then [] else
      [("errors", Json.arr (t.Errors.map defaultReplyTransferObjectError.toJson))]) ++
     (match t.Data with
      | some d => [("data", d)]
      | none => []) ++
     (if t.TokenOne = "" then [] else [("access_token", Json.str t.TokenOne)]) ++
     (if t.TokenTwo = "" then [] else [("refresh_token", Json.str t.TokenTwo)]) ++
     (match t.Meta with
      | some m => if m.isEmpty then [] else [("meta", metaToJson m)]
      | none => []))

/-- Modelled from the spec: the response request of the multi-error engine
(section 3, ResponseRequest) — the v1 struct definition is not under src/,
only its tests and aides exercise it.  It carries an optional single error,
an ordered error list, an optional data payload, the token pair, an explicit
status code (0 = unset), and optional header/metadata overlays. -/
structure NewResponseRequest where
  Writer : Option WriterState := none
  Data : Option Json := none
  Meta : Option (List (String × Json)) := none
  Headers : Option HeaderMap := none
  StatusCode : Int := 0
  Error : Option GoError := none
  Errors : List GoError := []
  TokenOne : String := ""
  TokenTwo : String := ""
  deriving Repr

/-- `Replier` for the multi-error engine: merged manifest plus the default
transfer object the engine reuses as per-call scratch space. -/
structure Replier where
  errorManifest : ErrorManifest := []
  transferObject : defaultReplyTransferObject := {}
  deriving Repr

/-- `NewReplier`: merges the manifest collection (same fixed merge as in
src/replier.go) and installs the default transfer object. -/
def NewReplier (manifests : List ErrorManifest) : Replier :=
  { errorManifest := mergeManifestCollections manifests, transferObject := {} }

/-- Modelled from the spec: the fixed Internal-Server-Error fallback entry
(section 4.1) of the multi-error engine — title "Internal Server Error",
status code 500; the v1 body of `getInternalServertErrorManifestItem` is not
under src/ (src/ has only the Message-based revision). -/
def getInternalServertErrorManifestItem : ErrorManifestItem :=
  { Title := "Internal Server Error", StatusCode := 500 }

/-- Manifest lookup on `err.Error()` with the 500 fallback on a miss
(section 4.1 Lookup plus the fallback entry; the v0 analogue is the lookup
at the top of `generateErrorResponse` in src/replier.go). -/
def resolveError (manifest : ErrorManifest) (err : GoError) : ErrorManifestItem :=
  match mapLookup manifest err.Error with
  | some item => item
  | none => getInternalServertErrorManifestItem

/-- A resolved entry is a server fault iff its status code lies in [500,599]. -/
def is5xx (item : ErrorManifestItem) : Bool :=
  decide (500 ≤ item.StatusCode ∧ item.StatusCode ≤ 599)

/-- Modelled from the spec: multi-error resolution with the 5xx short-circuit
(section 4.3 step 4) — resolve each error in order via lookup/fallback; the
first resolved entry whose status code lies in [500,599] discards everything
already resolved, becomes the entire output, and stops resolution.  This code
is not under src/; only its tests are. -/
def resolveErrorsAux (manifest : ErrorManifest) (acc : List ErrorManifestItem) :
    List GoError → List ErrorManifestItem
  | [] => acc
  | err :: rest =>
    let item := resolveError manifest err
    if is5xx item then [item]
    else resolveErrorsAux manifest (acc ++ [item]) rest

/-- Resolution of a whole error list, starting from an empty accumulator. -/
def resolveErrors (manifest : ErrorManifest) (errs : List GoError) :
    List ErrorManifestItem :=
  resolveErrorsAux manifest [] errs

/-- Modelled from the spec: conversion of a found/fallback manifest entry into
a fresh transfer-object error (section 4.3 step 4 with the section 4.2
ErrorEntry capability set); the status code is stored as a string. -/
def convertToTransferObjectError (item : ErrorManifestItem) :
    defaultReplyTransferObjectError :=
  defaultReplyTransferObjectError.SetStatusCode
    { Title := item.Title, Detail := item.Detail, About := item.About,
      Code := item.Code, Meta := item.Meta } item.StatusCode

/-- Modelled from the spec: overall status selection for a multi-error
response (section 4.3 step 5): scan the resolved entries in order and use the
first whose status-code string parses as an integer; if none parses, use the
fixed default 400. -/
def getMultiErrorStatusCode (toes : List defaultReplyTransferObjectError) : Int :=
  match toes.findSome? (fun t => strconvAtoi t.Status) with
  | some c => c
  | none => 400

/-- `setUniversalAttributes` as in src/replier.go, on the errors-carrying
transfer object. -/
def setUniversalAttributes (tObj : defaultReplyTransferObject) (w : WriterState)
    (headers : Option HeaderMap) (meta : Option (List (String × Json)))
    (statusCode : Int) : defaultReplyTransferObject × WriterState :=
  let w := setHeaders w headers
  let tObj := { tObj with Meta := meta }
  let tObj :=
    if statusCode ≠ 0 then { tObj with StatusCode := statusCode }
    else { tObj with StatusCode := defaultStatusCode }
  (tObj, w)

/-- `sendHTTPResponse` as in src/replier.go: `WriteHeader`, then encode. -/
def sendHTTPResponse (w : WriterState)
    (transferObject : defaultReplyTransferObject) : HTTPOutcome :=
  if checkWriteHeaderCode transferObject.StatusCode then
    HTTPOutcome.ok
      { w with wroteStatus := some transferObject.StatusCode,
               body := some transferObject.toJson }
  else HTTPOutcome.panicked transferObject.StatusCode w

/-- Modelled from the spec: the multi-error branch (section 4.3 steps 4-6):
resolve the list with the 5xx short-circuit, convert the entries, set them on
the envelope, pick the overall status code, and send. -/
def generateMultiErrorResponse (manifest : ErrorManifest)
    (tObj : defaultReplyTransferObject) (w : WriterState) (errs : List GoError) :
    HTTPOutcome × defaultReplyTransferObject :=
  let toes := (resolveErrors manifest errs).map convertToTransferObjectError
  let tObj :=
    { tObj with Errors := toes, StatusCode := getMultiErrorStatusCode toes }
  (sendHTTPResponse w tObj, tObj)

/-- Modelled from the spec: the single-error branch of the multi-error engine
(section 4.3 steps 4-5): resolve via lookup/fallback, set the one-entry error
list, and overwrite the status code with the resolved entry's status code.
The v0 analogue `generateErrorResponse` is under src/; the v1 body is not. -/
def generateErrorResponse (manifest : ErrorManifest)
    (tObj : defaultReplyTransferObject) (w : WriterState) (err : GoError) :
    HTTPOutcome × defaultReplyTransferObject :=
  let item := resolveError manifest err
  let tObj :=
    { tObj with
      Errors := [convertToTransferObjectError item]
      StatusCode := item.StatusCode }
  (sendHTTPResponse w tObj, tObj)

/-- `generateDefaultResponse` as in src/replier.go (the revision that leaves
the universally-set status code in place): data becomes the default body. -/
def generateDefaultResponse (tObj : defaultReplyTransferObject) (w : WriterState) :
    HTTPOutcome × defaultReplyTransferObject :=
  let tObj := { tObj with Data := some (Json.str defaultResponseBody) }
  (sendHTTPResponse w tObj, tObj)

/-- `generateDataResponse` as in src/replier.go. -/
def generateDataResponse (tObj : defaultReplyTransferObject) (w : WriterState)
    (data : Json) : HTTPOutcome × defaultReplyTransferObject :=
  let tObj := { tObj with Data := some data }
  (sendHTTPResponse w tObj, tObj)

/-- `generateTokenResponse` as in src/replier.go, on the renamed token pair. -/
def generateTokenResponse (tObj : defaultReplyTransferObject) (w : WriterState)
    (tokenOne tokenTwo : String) : HTTPOutcome × defaultReplyTransferObject :=
  let tObj := { tObj with TokenOne := tokenOne, TokenTwo := tokenTwo }
  (sendHTTPResponse w tObj, tObj)

/-- Modelled from the spec: `NewHTTPResponse` of the multi-error engine
(section 4.3): validate the writer, take a fresh envelope, apply universal
attributes, then branch in the priority order multi-error, single-error,
token, data, default (section 4.3 step 3).  The engine file of this revision
is not under src/; its branch structure follows the spec and the revision of
`NewHTTPResponse` that is under src/. -/
def NewHTTPResponse (r : Replier) (response : NewResponseRequest) :
    HTTPOutcome × Replier :=
  match response.Writer with
  | none =>
    (HTTPOutcome.errReturn
      "reply/http-response: failed to send response, no writer provided" none, r)
  | some w =>
    let tObj : defaultReplyTransferObject := {}
    let (tObj, w) :=
      setUniversalAttributes tObj w response.Headers response.Meta response.StatusCode
    let (outcome, tObj) :=
      if response.Errors.isEmpty then
        match response.Error with
        | some err => generateErrorResponse r.errorManifest tObj w err
        | none =>
          if response.TokenOne ≠ "" ∨ response.TokenTwo ≠ "" then
            generateTokenResponse tObj w response.TokenOne response.TokenTwo
          else
            match response.Data with
            | some data => generateDataResponse tObj w data
            | none => generateDefaultResponse tObj w
      else generateMultiErrorResponse r.errorManifest tObj w response.Errors
    (outcome, { r with transferObject := tObj })

end ReplyMulti

/-- Left-biased choice on options (explicit form of `orElse`, used to state
merge and header-overlay results). -/
def oOrElse {α : Type} : Option α → Option α → Option α
  | some v, _ => some v
  | none, b => b

/-- The entry a key receives from an ordered list of manifest collections
when the collection listed last wins: search the later collections first. -/
def lastDefined {α : Type} : List (List (String × α)) → String → Option α
  | [], _ => none
  | m :: rest, k => oOrElse (lastDefined rest k) (mapLookup m k)

/-- A Go map literal has pairwise-distinct keys; this is the corresponding
invariant on the association-list model of one manifest collection. -/
def nodupKeysB {α : Type} : List (String × α) → Bool
  | [] => true
  | p :: rest => (!rest.any (fun q => q.1 == p.1)) && nodupKeysB rest

/-- The value the last header pair with a given canonical key would leave
behind after overlaying a header list via `Set` in order. -/
def lastMatch : HeaderMap → String → Option String
  | [], _ => none
  | p :: rest, key =>
    oOrElse (lastMatch rest key)
      (if canonicalMIMEHeaderKey p.1 = canonicalMIMEHeaderKey key then some p.2
       else none)

/-- How many of the four response-kind triggers (error list, single error,
token pair, data payload) a request populates. -/
def populatedKinds (response : ReplyMulti.NewResponseRequest) : Nat :=
  (if response.Errors.isEmpty then 0 else 1) +
  (if response.Error.isSome then 1 else 0) +
  (if response.TokenOne ≠ "" ∨ response.TokenTwo ≠ "" then 1 else 0) +
  (if response.Data.isSome then 1 else 0)

/-- The same request with every trigger below its highest-precedence
populated response kind cleared (multi-error over single error over token
over data). -/
def highestPrecedenceOnly (response : ReplyMulti.NewResponseRequest) :
    ReplyMulti.NewResponseRequest :=
  if ¬response.Errors.isEmpty then
    { response with Error := none, TokenOne := "", TokenTwo := "", Data := none }
  else if response.Error.isSome then
    { response with TokenOne := "", TokenTwo := "", Data := none }
  else if response.TokenOne ≠ "" ∨ response.TokenTwo ≠ "" then
    { response with Data := none }
  else response

/-- Concrete manifest collections sharing the identity "dup", used to
exercise the merge at a specific input. -/
def mergeExampleManifests : List Reply.ErrorManifest :=
  [[("dup", { Message := "first", StatusCode := 400 }),
    ("only-a", { Message := "a", StatusCode := 404 })],
   [("dup", { Message := "second", StatusCode := 500 })]]

theorem oOrElse_none_right {α : Type} (a : Option α) : oOrElse a none = a := by
  cases a <;> rfl

theorem oOrElse_assoc {α : Type} (a b c : Option α) :
    oOrElse (oOrElse a b) c = oOrElse a (oOrElse b c) := by
  cases a <;> rfl

theorem find?_append {α : Type} (l₁ l₂ : List α) (p : α → Bool) :
    (l₁ ++ l₂).find? p = oOrElse (l₁.find? p) (l₂.find? p) := by
  induction l₁ with
  | nil => rfl
  | cons a l ih =>
    by_cases h : p a = true
    · simp [List.find?_cons_of_pos _ h, oOrElse]
    · simp only [List.cons_append, List.find?_cons_of_neg _ (by simpa using h), ih]

theorem mapLookup_nil {α : Type} (k : String) :
    mapLookup ([] : List (String × α)) k = none := rfl

theorem mapLookup_cons {α : Type} (p : String × α) (m : List (String × α))
    (k : String) :
    mapLookup (p :: m) k = if p.1 = k then some p.2 else mapLookup m k := by
  by_cases h : p.1 = k
  · simp [mapLookup, List.find?_cons_of_pos, h]
  · simp [mapLookup, List.find?_cons_of_neg, h]

theorem find?_filter_self {α : Type} (m : List (String × α)) (k : String) :
    (m.filter (fun p => p.1 ≠ k)).find? (fun p => p.1 = k) = none := by
  rw [List.find?_eq_none]
  intro x hx
  have := (List.mem_filter.mp hx).2
  simpa using this

theorem find?_filter_ne {α : Type} (m : List (String × α)) (k k2 : String)
    (h : k2 ≠ k) :
    (m.filter (fun p => p.1 ≠ k)).find? (fun p => p.1 = k2) =
      m.find? (fun p => p.1 = k2) := by
  induction m with
  | nil => rfl
  | cons p rest ih =>
    rw [List.filter_cons]
    by_cases hp : p.1 = k
    · rw [if_neg (by simp [hp])]
      have hne : ¬(p.1 = k2) := by rw [hp]; exact fun he => h he.symm
      rw [List.find?_cons_of_neg _ (by simpa using hne), ih]
    · rw [if_pos (by simpa using hp)]
      by_cases hk2 : p.1 = k2
      · rw [List.find?_cons_of_pos _ (by simpa using hk2),
          List.find?_cons_of_pos _ (by simpa using hk2)]
      · rw [List.find?_cons_of_neg _ (by simpa using hk2),
          List.find?_cons_of_neg _ (by simpa using hk2), ih]

theorem mapLookup_insert {α : Type} (m : List (String × α)) (k : String) (v : α)
    (k2 : String) :
    mapLookup (mapInsert m k v) k2 = if k2 = k then some v else mapLookup m k2 := by
  unfold mapInsert mapLookup
  rw [find?_append]
  by_cases h : k2 = k
  · subst h
    rw [find?_filter_self]
    simp [List.find?, oOrElse]
  · rw [find?_filter_ne _ _ _ h]
    have hsingle : ([(k, v)].find? (fun p => p.1 = k2)) = none := by
      have : ¬((k, v).1 = k2) := fun he => h he.symm
      simp [List.find?_cons_of_neg, this]
    rw [hsingle, oOrElse_none_right, if_neg h]

theorem mapLookup_none_of_any_false {α : Type} (m : List (String × α)) (key : String)
    (h : m.any (fun q => q.1 == key) = false) : mapLookup m key = none := by
  induction m with
  | nil => rfl
  | cons p rest ih =>
    simp only [List.any_cons, Bool.or_eq_false_iff, beq_eq_false_iff_ne] at h
    rw [mapLookup_cons, if_neg h.1, ih h.2]

theorem mapLookup_getManifestItems {α : Type} (m : List (String × α))
    (f : List (String × α)) (k : String) (h : nodupKeysB m = true) :
    mapLookup (getManifestItems m f) k = oOrElse (mapLookup m k) (mapLookup f k) := by
  induction m generalizing f with
  | nil => simp [getManifestItems, mapLookup_nil, oOrElse]
  | cons p rest ih =>
    simp only [nodupKeysB, Bool.and_eq_true, Bool.not_eq_true'] at h
    have hstep : getManifestItems (p :: rest) f =
        getManifestItems rest (mapInsert f p.1 p.2) := rfl
    rw [hstep, ih _ h.2, mapLookup_cons, mapLookup_insert]
    by_cases hk : p.1 = k
    · have hrest : mapLookup rest k = none := by
        apply mapLookup_none_of_any_false
        simpa [hk] using h.1
      simp [hk, hrest, oOrElse]
    · have : ¬k = p.1 := fun h2 => hk h2.symm
      simp [hk, this]

theorem mapLookup_mergeFold {α : Type} (ms : List (List (String × α)))
    (f : List (String × α)) (k : String) (h : ms.all nodupKeysB = true) :
    mapLookup (ms.foldl (fun merged m => getManifestItems m merged) f) k =
      oOrElse (lastDefined ms k) (mapLookup f k) := by
  induction ms generalizing f with
  | nil => simp [lastDefined, oOrElse]
  | cons m rest ih =>
    simp only [List.all_cons, Bool.and_eq_true] at h
    calc mapLookup ((m :: rest).foldl (fun merged m => getManifestItems m merged) f) k
        = oOrElse (lastDefined rest k) (mapLookup (getManifestItems m f) k) :=
          ih _ h.2
      _ = oOrElse (lastDefined rest k) (oOrElse (mapLookup m k) (mapLookup f k)) := by
          rw [mapLookup_getManifestItems _ _ _ h.1]
      _ = oOrElse (lastDefined (m :: rest) k) (mapLookup f k) := by
          rw [lastDefined, oOrElse_assoc]

theorem mapLookup_merge {α : Type} (ms : List (List (String × α))) (k : String)
    (h : ms.all nodupKeysB = true) :
    mapLookup (mergeManifestCollections ms) k = lastDefined ms k := by
  rw [mergeManifestCollections, mapLookup_mergeFold ms [] k h, mapLookup_nil,
    oOrElse_none_right]

theorem lastDefined_isSome {α : Type} (ms : List (List (String × α))) (k : String)
    (h : ms.any (fun m => (mapLookup m k).isSome) = true) :
    (lastDefined ms k).isSome = true := by
  induction ms with
  | nil => simp at h
  | cons m rest ih =>
    simp only [List.any_cons, Bool.or_eq_true] at h
    rw [lastDefined]
    cases hrest : lastDefined rest k with
    | some v => simp [oOrElse]
    | none =>
      rcases h with h | h
      · simpa [oOrElse] using h
      · have := ih h
        rw [hrest] at this
        simp at this

theorem getManifestItems_lookup_none {α : Type} (m f : List (String × α)) (k : String)
    (h : m.any (fun q => q.1 == k) = false) :
    mapLookup (getManifestItems m f) k = mapLookup f k := by
  induction m generalizing f with
  | nil => rfl
  | cons p rest ih =>
    simp only [List.any_cons, Bool.or_eq_false_iff] at h
    have hstep : getManifestItems (p :: rest) f =
        getManifestItems rest (mapInsert f p.1 p.2) := rfl
    rw [hstep, ih _ h.2, mapLookup_insert]
    have hne : p.1 ≠ k := by simpa using h.1
    rw [if_neg (fun h2 => hne h2.symm)]

theorem mapLookup_merge_none {α : Type} (ms : List (List (String × α))) (k : String)
    (h : ms.all (fun m => !(m.any (fun q => q.1 == k))) = true) :
    mapLookup (mergeManifestCollections ms) k = none := by
  suffices hgen : ∀ f, mapLookup f k = none →
      mapLookup (ms.foldl (fun merged m => getManifestItems m merged) f) k = none by
    exact hgen [] rfl
  induction ms with
  | nil => intro f hf; exact hf
  | cons m rest ih =>
    intro f hf
    simp only [List.all_cons, Bool.and_eq_true, Bool.not_eq_true'] at h
    exact ih h.2 _ ((getManifestItems_lookup_none m f k h.1).trans hf)

theorem any_key_false_of_lookup_none {α : Type} (m : List (String × α))
    (k : String) (h : mapLookup m k = none) :
    m.any (fun q => q.1 == k) = false := by
  induction m with
  | nil => rfl
  | cons p rest ih =>
    rw [mapLookup_cons] at h
    by_cases hp : p.1 = k
    · rw [if_pos hp] at h
      exact absurd h (by simp)
    · rw [if_neg hp] at h
      simp [List.any_cons, hp, ih h]

theorem resolveErrorsAux_5xx (m : ReplyMulti.ErrorManifest) (errs : List GoError)
    (acc : List ReplyMulti.ErrorManifestItem)
    (h : errs.any (fun e => ReplyMulti.is5xx (ReplyMulti.resolveError m e)) = true) :
    ∃ e0, errs.find? (fun e => ReplyMulti.is5xx (ReplyMulti.resolveError m e)) = some e0 ∧
      ReplyMulti.resolveErrorsAux m acc errs = [ReplyMulti.resolveError m e0] := by
  induction errs generalizing acc with
  | nil => simp at h
  | cons e rest ih =>
    by_cases h5 : ReplyMulti.is5xx (ReplyMulti.resolveError m e) = true
    · refine ⟨e, ?_, ?_⟩
      · simp [List.find?_cons, h5]
      · simp [ReplyMulti.resolveErrorsAux, h5]
    · have h5f : ReplyMulti.is5xx (ReplyMulti.resolveError m e) = false := by
        simpa using h5
      have h2 : rest.any (fun e => ReplyMulti.is5xx (ReplyMulti.resolveError m e)) = true := by
        simpa [List.any_cons, h5f] using h
      obtain ⟨e0, hf, hres⟩ := ih (acc ++ [ReplyMulti.resolveError m e]) h2
      refine ⟨e0, ?_, ?_⟩
      · rw [List.find?_cons]
        simp only [h5f]
        exact hf
      · simpa [ReplyMulti.resolveErrorsAux, h5f] using hres

theorem headerGet_set (h : HeaderMap) (k v key : String) :
    headerGet (headerSet h k v) key =
      if canonicalMIMEHeaderKey key = canonicalMIMEHeaderKey k then v
      else headerGet h key := by
  simp only [headerGet, headerSet]
  rw [find?_append]
  by_cases he : canonicalMIMEHeaderKey key = canonicalMIMEHeaderKey k
  · rw [he, find?_filter_self]
    have hs : List.find? (fun p => p.1 = canonicalMIMEHeaderKey k)
        [(canonicalMIMEHeaderKey k, v)] = some (canonicalMIMEHeaderKey k, v) := by
      simp [List.find?_cons_of_pos]
    rw [hs]
    simp [oOrElse]
  · rw [find?_filter_ne _ _ _ he]
    have hs : List.find? (fun p => p.1 = canonicalMIMEHeaderKey key)
        [(canonicalMIMEHeaderKey k, v)] = none := by
      have : ¬((canonicalMIMEHeaderKey k, v).1 = canonicalMIMEHeaderKey key) :=
        fun hc => he hc.symm
      simp [List.find?_cons_of_neg, this]
    rw [hs, oOrElse_none_right, if_neg he]

theorem headerGet_foldSet (hs : HeaderMap) (w0 : HeaderMap) (key : String) :
    headerGet (hs.foldl (fun acc p => headerSet acc p.1 p.2) w0) key =
      match lastMatch hs key with
      | some v => v
      | none => headerGet w0 key := by
  induction hs generalizing w0 with
  | nil => rfl
  | cons p rest ih =>
    rw [List.foldl_cons, ih, lastMatch]
    cases hrest : lastMatch rest key with
    | some v => simp [oOrElse]
    | none =>
      simp only [oOrElse]
      by_cases he : canonicalMIMEHeaderKey p.1 = canonicalMIMEHeaderKey key
      · rw [if_pos he, headerGet_set, if_pos he.symm]
      · rw [if_neg he, headerGet_set, if_neg (fun h2 => he h2.symm)]

theorem lastMatch_none_of_filter_nil (h : HeaderMap)
    (hf : h.filter (fun p => canonicalMIMEHeaderKey p.1 = "Content-Type") = []) :
    lastMatch h "Content-Type" = none := by
  induction h with
  | nil => rfl
  | cons p rest ih =>
    rw [List.filter_cons] at hf
    by_cases hp : canonicalMIMEHeaderKey p.1 = "Content-Type"
    · rw [if_pos (by simpa using hp)] at hf
      exact absurd hf (by simp)
    · rw [if_neg (by simpa using hp)] at hf
      rw [lastMatch, ih hf]
      have hne : ¬(canonicalMIMEHeaderKey p.1 = canonicalMIMEHeaderKey "Content-Type") := hp
      rw [if_neg hne]
      rfl

theorem lastMatch_of_filter_single (h : HeaderMap) (k0 v : String)
    (hf : h.filter (fun p => canonicalMIMEHeaderKey p.1 = "Content-Type") = [(k0, v)]) :
    lastMatch h "Content-Type" = some v := by
  induction h with
  | nil => exact absurd hf (by simp)
  | cons p rest ih =>
    rw [List.filter_cons] at hf
    by_cases hp : canonicalMIMEHeaderKey p.1 = "Content-Type"
    · rw [if_pos (by simpa using hp)] at hf
      have hp2 : p = (k0, v) := (List.cons.injEq _ _ _ _ ▸ hf).1
      have hrest : rest.filter (fun p => canonicalMIMEHeaderKey p.1 = "Content-Type") = [] :=
        (List.cons.injEq _ _ _ _ ▸ hf).2
      rw [lastMatch, lastMatch_none_of_filter_nil rest hrest]
      have hcon : canonicalMIMEHeaderKey p.1 = canonicalMIMEHeaderKey "Content-Type" := hp
      rw [if_pos hcon]
      simp [oOrElse, hp2]
    · rw [if_neg (by simpa using hp)] at hf
      rw [lastMatch, ih hf]
      rfl

theorem sendHTTPResponse_writer_headers (w : WriterState)
    (tObj : Reply.defaultReplyTransferObject) (w2 : WriterState)
    (h : (Reply.sendHTTPResponse w tObj).writer = some w2) :
    w2.headers = w.headers := by
  unfold Reply.sendHTTPResponse at h
  split at h <;> simp [HTTPOutcome.writer] at h <;> rw [← h]

theorem NewHTTPResponse_outcome_eq_send (r : Reply.Replier)
    (response : Reply.NewResponseRequest) (w : WriterState)
    (hW : response.Writer = some w) :
    (Reply.NewHTTPResponse r response).1 =
      Reply.sendHTTPResponse (setHeaders w response.Headers)
        ((Reply.NewHTTPResponse r response).2).transferObject := by
  rcases response with ⟨W, D, M, H, SC, MSG, E, A, R⟩
  simp only at hW
  subst hW
  cases E with
  | some e => rfl
  | none =>
    by_cases hA : A ≠ "" ∨ R ≠ ""
    · simp [Reply.NewHTTPResponse, Reply.setUniversalAttributes,
        Reply.generateTokenResponse, hA]
    · cases D with
      | some d =>
        simp [Reply.NewHTTPResponse, Reply.setUniversalAttributes,
          Reply.generateDataResponse, hA]
      | none =>
        simp [Reply.NewHTTPResponse, Reply.setUniversalAttributes,
          Reply.generateDefaultResponse, hA]

theorem NewHTTPResponse_manifest_frame (r : Reply.Replier)
    (response : Reply.NewResponseRequest) :
    ((Reply.NewHTTPResponse r response).2).errorManifest = r.errorManifest := by
  rcases response with ⟨W, D, M, H, SC, MSG, E, A, R⟩
  cases W with
  | none => rfl
  | some w =>
    cases E with
    | some e => rfl
    | none =>
      by_cases hA : A ≠ "" ∨ R ≠ ""
      · simp [Reply.NewHTTPResponse, Reply.setUniversalAttributes,
          Reply.generateTokenResponse, hA]
      · cases D with
        | some d =>
          simp [Reply.NewHTTPResponse, Reply.setUniversalAttributes,
            Reply.generateDataResponse, hA]
        | none =>
          simp [Reply.NewHTTPResponse, Reply.setUniversalAttributes,
            Reply.generateDefaultResponse, hA]

/-- C4: Manifest merge — for every ordered list of manifest collections (each
satisfying the Go-map invariant of pairwise-distinct keys), the manifest built
by `NewReplier` contains every identity that appears in any collection, and an
identity appearing in several collections receives exactly the entry of the
collection listed last in the input order; the merge is a total function, so
no error is raised on duplicate identities. -/
theorem manifest_merge_last_wins (manifests : List Reply.ErrorManifest) (k : String)
    (h : manifests.all nodupKeysB = true) :
    mapLookup (Reply.NewReplier manifests).errorManifest k = lastDefined manifests k ∧
    (manifests.any (fun m => (mapLookup m k).isSome) = true →
      (mapLookup (Reply.NewReplier manifests).errorManifest k).isSome = true) := by
  have hbase : mapLookup (Reply.NewReplier manifests).errorManifest k =
      lastDefined manifests k := mapLookup_merge manifests k h
  refine ⟨hbase, fun hany => ?_⟩
  rw [hbase]
  exact lastDefined_isSome manifests k hany

/-- Witness for C4 at a concrete input: two collections share the identity
"dup"; the merged manifest returns the entry of the later collection and also
contains the identity that appears only in the first collection. -/
theorem manifest_merge_last_wins_witness :
    (mergeExampleManifests.all nodupKeysB = true) ∧
    mapLookup (Reply.NewReplier mergeExampleManifests).errorManifest "dup" =
      lastDefined mergeExampleManifests "dup" ∧
    lastDefined mergeExampleManifests "dup" =
      some { Message := "second", StatusCode := 500 } ∧
    mapLookup (Reply.NewReplier mergeExampleManifests).errorManifest "only-a" =
      some { Message := "a", StatusCode := 404 } :=
  ⟨rfl, (manifest_merge_last_wins mergeExampleManifests "dup" rfl).1, rfl, rfl⟩

/-- C5: Token aide validation — a call to `NewHTTPTokenResponse` in which both
token strings are empty returns an error and leaves the transport untouched,
and this check is the only validation before delegating: any call with at
least one non-empty token is handed unchanged to `NewHTTPResponse`. -/
theorem token_aide_validation (r : Reply.Replier) (w : Option WriterState)
    (statusCode : Int) (attributes : List Reply.ResponseAttributes)
    (accessToken refreshToken : String) :
    (Reply.NewHTTPTokenResponse r w statusCode "" "" attributes =
      (HTTPOutcome.errReturn
        "reply/http-token-aide: failed at least one token must be returned" w, r)) ∧
    ((Reply.isEmpty accessToken && Reply.isEmpty refreshToken) = false →
      Reply.NewHTTPTokenResponse r w statusCode accessToken refreshToken attributes =
        Reply.NewHTTPResponse r
          (Reply.applyAttributes
            { Writer := w, StatusCode := statusCode, AccessToken := accessToken,
              RefreshToken := refreshToken } attributes)) := by
  refine ⟨rfl, fun h => ?_⟩
  simp [Reply.NewHTTPTokenResponse, h]

/-- Witness for C5 at concrete inputs: the both-empty call fails with the
validation error and the original replier, while a call carrying one token
delegates to `NewHTTPResponse`. -/
theorem token_aide_validation_witness :
    (Reply.NewHTTPTokenResponse (Reply.NewReplier []) (some {}) 200 "" "" [] =
      (HTTPOutcome.errReturn
        "reply/http-token-aide: failed at least one token must be returned"
        (some {}), Reply.NewReplier [])) ∧
    ((Reply.isEmpty "token-1" && Reply.isEmpty "") = false) ∧
    (Reply.NewHTTPTokenResponse (Reply.NewReplier []) (some {}) 200 "token-1" "" [] =
      Reply.NewHTTPResponse (Reply.NewReplier [])
        (Reply.applyAttributes
          { Writer := some {}, StatusCode := 200, AccessToken := "token-1",
            RefreshToken := "" } [])) :=
  ⟨(token_aide_validation (Reply.NewReplier []) (some {}) 200 [] "" "").1, rfl,
   (token_aide_validation (Reply.NewReplier []) (some {}) 200 [] "token-1" "").2 rfl⟩

/-- C9: String-keyed error resolution — the engine reads an error only through
its rendered message string, so two requests that differ only in which of two
equal-message error values they carry produce identical results (same
outcome, same post-call replier), regardless of error value identity. -/
theorem error_resolution_by_message (r : Reply.Replier)
    (req : Reply.NewResponseRequest) (e1 e2 : GoError) (h : e1.Error = e2.Error) :
    Reply.NewHTTPResponse r { req with Error := some e1 } =
      Reply.NewHTTPResponse r { req with Error := some e2 } := by
  rcases req with ⟨W, D, M, H, SC, MSG, E, A, R⟩
  cases W with
  | none => rfl
  | some w =>
    have hmsg : e1.msg = e2.msg := h
    simp only [Reply.NewHTTPResponse, Reply.generateErrorResponse, GoError.Error, hmsg]

/-- Witness for C9 at a concrete input: two error values with distinct
identities but the same message yield the same response. -/
theorem error_resolution_by_message_witness :
    (GoError.Error ⟨0, "same-message"⟩ = GoError.Error ⟨1, "same-message"⟩) ∧
    Reply.NewHTTPResponse (Reply.NewReplier []) { Writer := some {}, Error := some ⟨0, "same-message"⟩ } =
      Reply.NewHTTPResponse (Reply.NewReplier []) { Writer := some {}, Error := some ⟨1, "same-message"⟩ } :=
  ⟨rfl, error_resolution_by_message (Reply.NewReplier []) { Writer := some {} }
    ⟨0, "same-message"⟩ ⟨1, "same-message"⟩ rfl⟩

/-- C10: No status-code sanitization on the error path — whenever the manifest
resolves an error, the code handed to `ResponseWriter.WriteHeader` is exactly
the resolved entry's `StatusCode`, with no defaulting or validation; in
particular, a manifest entry whose `StatusCode` is 0 (unset) drives the call
into `WriteHeader 0`, which panics inside net/http (outcome `panicked`, not an
error return). -/
theorem error_status_unsanitized :
    (∀ (r : Reply.Replier) (req : Reply.NewResponseRequest) (w : WriterState)
        (err : GoError) (item : Reply.ErrorManifestItem),
      mapLookup r.errorManifest err.Error = some item →
      (Reply.NewHTTPResponse r { req with Writer := some w, Error := some err }).1.writeHeaderArg =
        some item.StatusCode) ∧
    (Reply.NewHTTPResponse
        (Reply.NewReplier [[("zero-status-error", { Message := "Oops", StatusCode := 0 })]])
        { Writer := some {}, Error := some ⟨0, "zero-status-error"⟩ }).1 =
      HTTPOutcome.panicked 0 { headers := [("Content-Type", "application/json")] } := by
  constructor
  · intro r req w err item hlook
    rcases req with ⟨W, D, M, H, SC, MSG, E, A, R⟩
    simp only [Reply.NewHTTPResponse, Reply.generateErrorResponse, Reply.sendHTTPResponse,
      Reply.setUniversalAttributes]
    rw [hlook]
    split <;> simp [HTTPOutcome.writeHeaderArg]
  · rfl

/-- Witness for C10 at a concrete input: the lookup hypothesis is discharged
on the zero-status manifest, showing the `WriteHeader` argument is exactly 0. -/
theorem error_status_unsanitized_witness :
    (mapLookup (Reply.NewReplier
        [[("zero-status-error", { Message := "Oops", StatusCode := 0 })]]).errorManifest
      (GoError.Error ⟨0, "zero-status-error"⟩) =
      some { Message := "Oops", StatusCode := 0 }) ∧
    (Reply.NewHTTPResponse
        (Reply.NewReplier [[("zero-status-error", { Message := "Oops", StatusCode := 0 })]])
        { Writer := some {}, Error := some ⟨0, "zero-status-error"⟩ }).1.writeHeaderArg =
      some (0 : Int) :=
  ⟨rfl,
   (error_status_unsanitized.1
      (Reply.NewReplier [[("zero-status-error", { Message := "Oops", StatusCode := 0 })]])
      { } {} ⟨0, "zero-status-error"⟩ { Message := "Oops", StatusCode := 0 } rfl)⟩

/-- C8 counterexample: the claim that `NewHTTPResponse` leaves every field of
the `Replier` unchanged fails — after a call on a fresh replier, the stored
transfer object is the populated envelope of that call, not the field's prior
value. -/
theorem replier_transferObject_mutates :
    (Reply.NewHTTPResponse (Reply.NewReplier []) { Writer := some {} }).2.transferObject ≠
      (Reply.NewReplier []).transferObject := by
  intro hEq
  have h2 : (200 : Int) = 0 := congrArg Reply.defaultReplyTransferObject.StatusCode hEq
  exact absurd h2 (by norm_num)

/-- C8 amended: `NewHTTPResponse` leaves the merged manifest unchanged and its
entire result (returned value, transport effect, post-call replier) is
independent of the transfer-object scratch field stored on the replier — every
call is a pure function of the manifest and the request — but the call does
reassign the replier's transfer-object field to the freshly populated
envelope. -/
theorem respond_pure_of_manifest_and_request (manifest : Reply.ErrorManifest)
    (t1 t2 : Reply.defaultReplyTransferObject) (req : Reply.NewResponseRequest)
    (w : WriterState) :
    (Reply.NewHTTPResponse { errorManifest := manifest, transferObject := t1 }
        { req with Writer := some w } =
      Reply.NewHTTPResponse { errorManifest := manifest, transferObject := t2 }
        { req with Writer := some w }) ∧
    ((Reply.NewHTTPResponse { errorManifest := manifest, transferObject := t1 }
        { req with Writer := some w }).2).errorManifest = manifest :=
  ⟨rfl, NewHTTPResponse_manifest_frame _ _⟩

/-- C1: Response-kind precedence — for every response request in which at
least two of error-list, single error, token strings and data payload are
simultaneously populated, the engine's full result (response body, status
code, transport effect and post-call replier) equals exactly the result of
the same request stripped of everything below its highest-precedence
populated kind; the priority order is multi-error, single error, token,
data, default, and the first matching condition wins. -/
theorem response_kind_precedence (r : ReplyMulti.Replier)
    (response : ReplyMulti.NewResponseRequest)
    (h : 2 ≤ populatedKinds response) :
    ReplyMulti.NewHTTPResponse r response =
      ReplyMulti.NewHTTPResponse r (highestPrecedenceOnly response) := by
  rcases response with ⟨W, D, M, H, SC, E, ES, T1, T2⟩
  cases W with
  | none =>
    cases ES with
    | cons e es =>
      simp [highestPrecedenceOnly, ReplyMulti.NewHTTPResponse]
    | nil =>
      cases E with
      | some e => simp [highestPrecedenceOnly, ReplyMulti.NewHTTPResponse]
      | none =>
        by_cases hT : T1 ≠ "" ∨ T2 ≠ ""
        · simp [highestPrecedenceOnly, hT, ReplyMulti.NewHTTPResponse]
        · simp [highestPrecedenceOnly, hT]
  | some w =>
    cases ES with
    | cons e es =>
      simp [highestPrecedenceOnly, ReplyMulti.NewHTTPResponse,
        ReplyMulti.setUniversalAttributes, ReplyMulti.generateMultiErrorResponse]
    | nil =>
      cases E with
      | some e =>
        simp [highestPrecedenceOnly, ReplyMulti.NewHTTPResponse,
          ReplyMulti.setUniversalAttributes, ReplyMulti.generateErrorResponse]
      | none =>
        by_cases hT : T1 ≠ "" ∨ T2 ≠ ""
        · simp [highestPrecedenceOnly, hT, ReplyMulti.NewHTTPResponse,
            ReplyMulti.setUniversalAttributes, ReplyMulti.generateTokenResponse]
        · simp [highestPrecedenceOnly, hT]

/-- Witness for C1 at a concrete input: a request populating the error list,
a single error, a token and a data payload at once is answered exactly as the
request carrying only its error list. -/
theorem response_kind_precedence_witness :
    (2 ≤ populatedKinds
      { Writer := some {}, Errors := [⟨0, "some-error"⟩],
        Error := some ⟨1, "other-error"⟩, TokenOne := "tok",
        Data := some (Json.str "payload") }) ∧
    ReplyMulti.NewHTTPResponse (ReplyMulti.NewReplier [])
        { Writer := some {}, Errors := [⟨0, "some-error"⟩],
          Error := some ⟨1, "other-error"⟩, TokenOne := "tok",
          Data := some (Json.str "payload") } =
      ReplyMulti.NewHTTPResponse (ReplyMulti.NewReplier [])
        (highestPrecedenceOnly
          { Writer := some {}, Errors := [⟨0, "some-error"⟩],
            Error := some ⟨1, "other-error"⟩, TokenOne := "tok",
            Data := some (Json.str "payload") }) :=
  ⟨by decide,
   response_kind_precedence (ReplyMulti.NewReplier [])
     { Writer := some {}, Errors := [⟨0, "some-error"⟩],
       Error := some ⟨1, "other-error"⟩, TokenOne := "tok",
       Data := some (Json.str "payload") } (by decide)⟩

/-- C2: 5xx short-circuit — for every multi-error request whose error list
contains at least one identity resolving (by manifest lookup or the
unmapped-identity fallback) to a status code in [500,599], the resolved
output list has length exactly one and consists exactly of the entry of the
first such identity, regardless of list order or how many other mapped or
unmapped errors are present; the envelope the engine sends carries exactly
that one converted entry. -/
theorem multi_error_5xx_short_circuit (manifests : List ReplyMulti.ErrorManifest)
    (response : ReplyMulti.NewResponseRequest) (w : WriterState) (errs : List GoError)
    (h : errs.any (fun e => ReplyMulti.is5xx (ReplyMulti.resolveError
        (ReplyMulti.NewReplier manifests).errorManifest e)) = true) :
    ∃ e0,
      errs.find? (fun e => ReplyMulti.is5xx (ReplyMulti.resolveError
        (ReplyMulti.NewReplier manifests).errorManifest e)) = some e0 ∧
      ReplyMulti.resolveErrors (ReplyMulti.NewReplier manifests).errorManifest errs =
        [ReplyMulti.resolveError (ReplyMulti.NewReplier manifests).errorManifest e0] ∧
      (ReplyMulti.resolveErrors (ReplyMulti.NewReplier manifests).errorManifest errs).length = 1 ∧
      ((ReplyMulti.NewHTTPResponse (ReplyMulti.NewReplier manifests)
          { response with Writer := some w, Errors := errs }).2).transferObject.Errors =
        [ReplyMulti.convertToTransferObjectError
          (ReplyMulti.resolveError (ReplyMulti.NewReplier manifests).errorManifest e0)] := by
  obtain ⟨e0, hf, hres⟩ :=
    resolveErrorsAux_5xx (ReplyMulti.NewReplier manifests).errorManifest errs [] h
  have hres2 : ReplyMulti.resolveErrors
      (ReplyMulti.NewReplier manifests).errorManifest errs =
      [ReplyMulti.resolveError (ReplyMulti.NewReplier manifests).errorManifest e0] := hres
  refine ⟨e0, hf, hres2, by rw [hres2]; rfl, ?_⟩
  have hie : errs.isEmpty = false := by
    cases errs with
    | nil => simp at h
    | cons a l => rfl
  rcases response with ⟨W, D, M, H, SC, E, ES, T1, T2⟩
  simp [ReplyMulti.NewHTTPResponse, ReplyMulti.setUniversalAttributes,
    ReplyMulti.generateMultiErrorResponse, hie, hres2]

/-- Witness for C2 at a concrete input: a list carrying a mapped 400 error,
then a mapped 503 error, then an unmapped identity resolves to exactly the
503 entry. -/
theorem multi_error_5xx_short_circuit_witness :
    (([⟨0, "bad-request-error"⟩, ⟨1, "upstream-down-error"⟩, ⟨2, "unmapped-error"⟩] :
        List GoError).any (fun e => ReplyMulti.is5xx (ReplyMulti.resolveError
          (ReplyMulti.NewReplier
            [[("bad-request-error", { Title := "Bad Request", StatusCode := 400 }),
              ("upstream-down-error", { Title := "Upstream Down", StatusCode := 503 })]]).errorManifest
          e)) = true) ∧
    (∃ e0,
      ([⟨0, "bad-request-error"⟩, ⟨1, "upstream-down-error"⟩, ⟨2, "unmapped-error"⟩] :
          List GoError).find? (fun e => ReplyMulti.is5xx (ReplyMulti.resolveError
        (ReplyMulti.NewReplier
          [[("bad-request-error", { Title := "Bad Request", StatusCode := 400 }),
            ("upstream-down-error", { Title := "Upstream Down", StatusCode := 503 })]]).errorManifest
        e)) = some e0 ∧
      ReplyMulti.resolveErrors (ReplyMulti.NewReplier
        [[("bad-request-error", { Title := "Bad Request", StatusCode := 400 }),
          ("upstream-down-error", { Title := "Upstream Down", StatusCode := 503 })]]).errorManifest
        [⟨0, "bad-request-error"⟩, ⟨1, "upstream-down-error"⟩, ⟨2, "unmapped-error"⟩] =
        [ReplyMulti.resolveError (ReplyMulti.NewReplier
          [[("bad-request-error", { Title := "Bad Request", StatusCode := 400 }),
            ("upstream-down-error", { Title := "Upstream Down", StatusCode := 503 })]]).errorManifest
          e0] ∧
      (ReplyMulti.resolveErrors (ReplyMulti.NewReplier
        [[("bad-request-error", { Title := "Bad Request", StatusCode := 400 }),
          ("upstream-down-error", { Title := "Upstream Down", StatusCode := 503 })]]).errorManifest
        [⟨0, "bad-request-error"⟩, ⟨1, "upstream-down-error"⟩, ⟨2, "unmapped-error"⟩]).length = 1 ∧
      ((ReplyMulti.NewHTTPResponse (ReplyMulti.NewReplier
          [[("bad-request-error", { Title := "Bad Request", StatusCode := 400 }),
            ("upstream-down-error", { Title := "Upstream Down", StatusCode := 503 })]])
          { ({} : ReplyMulti.NewResponseRequest) with
            Writer := some {}
            Errors := [⟨0, "bad-request-error"⟩, ⟨1, "upstream-down-error"⟩, ⟨2, "unmapped-error"⟩] }).2).transferObject.Errors =
        [ReplyMulti.convertToTransferObjectError
          (ReplyMulti.resolveError (ReplyMulti.NewReplier
            [[("bad-request-error", { Title := "Bad Request", StatusCode := 400 }),
              ("upstream-down-error", { Title := "Upstream Down", StatusCode := 503 })]]).errorManifest
            e0)]) :=
  ⟨rfl,
   multi_error_5xx_short_circuit
     [[("bad-request-error", { Title := "Bad Request", StatusCode := 400 }),
       ("upstream-down-error", { Title := "Upstream Down", StatusCode := 503 })]]
     {} {}
     [⟨0, "bad-request-error"⟩, ⟨1, "upstream-down-error"⟩, ⟨2, "unmapped-error"⟩] rfl⟩

/-- C3: Manifest fallback — for every error identity absent from every
supplied manifest collection, the response carries HTTP status 500 and a
single error entry equal to the fixed fallback entry titled exactly
"Internal Server Error" with no detail, about, code or meta fields, and the
call returns normally (outcome `ok`): the lookup miss is not surfaced as an
engine-level error to the caller. -/
theorem manifest_fallback (manifests : List ReplyMulti.ErrorManifest) (e : GoError)
    (w : WriterState)
    (h : manifests.all (fun m => (mapLookup m e.Error).isNone) = true) :
    (ReplyMulti.NewHTTPResponse (ReplyMulti.NewReplier manifests)
        { Writer := some w, Error := some e }).1 =
      HTTPOutcome.ok
        { setDefaultContentType w with
          wroteStatus := some 500,
          body := some (Json.obj [("errors", Json.arr
            [Json.obj [("title", Json.str "Internal Server Error"),
                       ("status", Json.str "500")]])]) } ∧
    ((ReplyMulti.NewHTTPResponse (ReplyMulti.NewReplier manifests)
        { Writer := some w, Error := some e }).2).transferObject.Errors =
      [{ Title := "Internal Server Error", Status := "500" }] := by
  have hnone : mapLookup (mergeManifestCollections manifests) e.Error = none := by
    apply mapLookup_merge_none
    rw [List.all_eq_true] at h ⊢
    intro m hm
    have hmn : mapLookup m e.Error = none :=
      Option.isNone_iff_eq_none.mp (by simpa using h m hm)
    simp [any_key_false_of_lookup_none m _ hmn]
  have htos : toString (500 : Int) = "500" := rfl
  constructor <;>
    simp [htos, ReplyMulti.NewHTTPResponse, ReplyMulti.setUniversalAttributes,
      ReplyMulti.generateErrorResponse, ReplyMulti.resolveError, ReplyMulti.NewReplier,
      hnone, ReplyMulti.getInternalServertErrorManifestItem,
      ReplyMulti.convertToTransferObjectError,
      ReplyMulti.defaultReplyTransferObjectError.SetStatusCode,
      ReplyMulti.sendHTTPResponse, checkWriteHeaderCode, setHeaders,
      ReplyMulti.defaultReplyTransferObject.toJson,
      ReplyMulti.defaultReplyTransferObjectError.toJson]

/-- Witness for C3 at a concrete input: the identity "missing-error" is
absent from the one supplied collection, and the response is the fixed 500
fallback. -/
theorem manifest_fallback_witness :
    (([[("other-error", { Title := "X", StatusCode := 404 })]] :
        List ReplyMulti.ErrorManifest).all
      (fun m => (mapLookup m (GoError.Error ⟨0, "missing-error"⟩)).isNone) = true) ∧
    (ReplyMulti.NewHTTPResponse
        (ReplyMulti.NewReplier [[("other-error", { Title := "X", StatusCode := 404 })]])
        { Writer := some {}, Error := some ⟨0, "missing-error"⟩ }).1 =
      HTTPOutcome.ok
        { setDefaultContentType {} with
          wroteStatus := some 500,
          body := some (Json.obj [("errors", Json.arr
            [Json.obj [("title", Json.str "Internal Server Error"),
                       ("status", Json.str "500")]])]) } :=
  ⟨rfl,
   (manifest_fallback [[("other-error", { Title := "X", StatusCode := 404 })]]
     ⟨0, "missing-error"⟩ {} rfl).1⟩

/-- C6 counterexample: the claim fails as stated on two inputs that satisfy
all of its listed conditions (usable writer, nil single error, empty error
list, both tokens empty, nil data).  First, a request carrying metadata is
answered with a body holding both the data and meta fields, not the bare
default body.  Second, a request whose explicit status code is 7 never
produces a response: `WriteHeader` panics on the invalid code instead of
writing status 7. -/
theorem default_branch_counterexample :
    ((ReplyMulti.NewHTTPResponse (ReplyMulti.NewReplier [])
        { Writer := some {}, Meta := some [("example", Json.str "meta in response")] }).1 =
      HTTPOutcome.ok
        { headers := [("Content-Type", "application/json")],
          wroteStatus := some 200,
          body := some (Json.obj
            [("data", Json.str defaultResponseBody),
             ("meta", Json.obj [("example", Json.str "meta in response")])]) }) ∧
    (Json.obj [("data", Json.str defaultResponseBody),
               ("meta", Json.obj [("example", Json.str "meta in response")])] ≠
      Json.obj [("data", Json.str defaultResponseBody)]) ∧
    ((ReplyMulti.NewHTTPResponse (ReplyMulti.NewReplier [])
        { Writer := some {}, StatusCode := 7 }).1 =
      HTTPOutcome.panicked 7 { headers := [("Content-Type", "application/json")] }) :=
  ⟨rfl, by simp, rfl⟩

/-- C6 amended: for every request with a usable writer, nil single error,
empty error list, both tokens empty, nil data payload AND nil metadata, whose
explicit status code is 0 or a writable code in [100,999], the response body
is the JSON object with the single field data holding the literal
two-character placeholder string, and the written status code equals the
explicit request code when non-zero, else 200. -/
theorem default_branch_response (r : ReplyMulti.Replier)
    (response : ReplyMulti.NewResponseRequest) (w : WriterState)
    (hE : response.Error = none) (hES : response.Errors = [])
    (hT1 : response.TokenOne = "") (hT2 : response.TokenTwo = "")
    (hD : response.Data = none) (hM : response.Meta = none)
    (hSC : response.StatusCode = 0 ∨
      (100 ≤ response.StatusCode ∧ response.StatusCode ≤ 999)) :
    (ReplyMulti.NewHTTPResponse r { response with Writer := some w }).1 =
      HTTPOutcome.ok
        { setHeaders w response.Headers with
          wroteStatus :=
            some (if response.StatusCode ≠ 0 then response.StatusCode else 200),
          body := some (Json.obj [("data", Json.str defaultResponseBody)]) } := by
  rcases response with ⟨W, D, M, H, SC, E, ES, T1, T2⟩
  subst hE hES hT1 hT2 hD hM
  rcases hSC with hSC | ⟨h1, h2⟩
  · subst hSC
    simp [ReplyMulti.NewHTTPResponse, ReplyMulti.setUniversalAttributes,
      ReplyMulti.generateDefaultResponse, ReplyMulti.sendHTTPResponse,
      checkWriteHeaderCode, defaultStatusCode,
      ReplyMulti.defaultReplyTransferObject.toJson]
  · have h1a : (100 : Int) ≤ SC := h1
    have h2a : SC ≤ 999 := h2
    have hne : SC ≠ 0 := by omega
    have hchk : checkWriteHeaderCode SC = true := by
      simp only [checkWriteHeaderCode, decide_eq_true_eq]
      exact ⟨h1a, h2a⟩
    simp [ReplyMulti.NewHTTPResponse, ReplyMulti.setUniversalAttributes,
      ReplyMulti.generateDefaultResponse, ReplyMulti.sendHTTPResponse, hne, hchk,
      ReplyMulti.defaultReplyTransferObject.toJson]

/-- Witness for the amended C6 at a concrete input: a request carrying only a
writer and the explicit status code 302 receives exactly the default body and
status 302. -/
theorem default_branch_response_witness :
    (ReplyMulti.NewHTTPResponse (ReplyMulti.NewReplier [])
        { StatusCode := 302, Writer := some {} }).1 =
      HTTPOutcome.ok
        { headers := [("Content-Type", "application/json")],
          wroteStatus := some 302,
          body := some (Json.obj [("data", Json.str defaultResponseBody)]) } :=
  default_branch_response (ReplyMulti.NewReplier []) { StatusCode := 302 } {}
    rfl rfl rfl rfl rfl rfl (Or.inr (by norm_num))

/-- C7: Content-Type non-clobber — for every request, when the caller's header
overlay carries exactly one pair whose canonical key is Content-Type, the
final transport headers hold exactly the caller's value for Content-Type (the
engine's JSON default never survives); and when the caller supplies no header
overlay, the final Content-Type is the engine's JSON default exactly when the
transport had none, else the transport's pre-existing value, untouched. -/
theorem content_type_non_clobber (r : Reply.Replier) (req : Reply.NewResponseRequest)
    (w : WriterState) (h : HeaderMap) (k0 v : String) :
    ((h.filter (fun p => canonicalMIMEHeaderKey p.1 = "Content-Type") = [(k0, v)]) →
      ∀ w2, ((Reply.NewHTTPResponse r
          { req with Writer := some w, Headers := some h }).1).writer = some w2 →
        headerGet w2.headers "Content-Type" = v) ∧
    (∀ w2, ((Reply.NewHTTPResponse r
        { req with Writer := some w, Headers := none }).1).writer = some w2 →
      headerGet w2.headers "Content-Type" =
        if headerGet w.headers "Content-Type" = "" then "application/json"
        else headerGet w.headers "Content-Type") := by
  constructor
  · intro hone w2 hw2
    rw [NewHTTPResponse_outcome_eq_send r _ w rfl] at hw2
    have hh := sendHTTPResponse_writer_headers _ _ _ hw2
    rw [hh]
    show headerGet (h.foldl (fun acc p => headerSet acc p.1 p.2)
      (setDefaultContentType w).headers) "Content-Type" = v
    rw [headerGet_foldSet, lastMatch_of_filter_single h k0 v hone]
  · intro w2 hw2
    rw [NewHTTPResponse_outcome_eq_send r _ w rfl] at hw2
    have hh := sendHTTPResponse_writer_headers _ _ _ hw2
    rw [hh]
    show headerGet (setDefaultContentType w).headers "Content-Type" = _
    unfold setDefaultContentType
    by_cases hct : headerGet w.headers "Content-type" = ""
    · rw [if_pos hct]
      have hct2 : headerGet w.headers "Content-Type" = "" := hct
      rw [if_pos hct2]
      show headerGet (headerSet w.headers "Content-type" "application/json")
        "Content-Type" = "application/json"
      rw [headerGet_set, if_pos (by rfl)]
    · rw [if_neg hct]
      have hct2 : ¬(headerGet w.headers "Content-Type" = "") := hct
      rw [if_neg hct2]

/-- Witness for C7 at concrete inputs: a caller-supplied lowercase
content-type header survives verbatim as the final Content-Type, and with no
caller headers on an empty transport the JSON default is applied. -/
theorem content_type_non_clobber_witness :
    (([("content-type", "text/xml")] : HeaderMap).filter
        (fun p => canonicalMIMEHeaderKey p.1 = "Content-Type") =
      [("content-type", "text/xml")]) ∧
    headerGet
      ({ headers := [("Content-Type", "text/xml")], wroteStatus := some 200,
         body := some (Json.obj [("data", Json.str defaultResponseBody)]) } :
        WriterState).headers "Content-Type" = "text/xml" ∧
    headerGet
      ({ headers := [("Content-Type", "application/json")], wroteStatus := some 200,
         body := some (Json.obj [("data", Json.str defaultResponseBody)]) } :
        WriterState).headers "Content-Type" = "application/json" :=
  ⟨rfl,
   (content_type_non_clobber (Reply.NewReplier []) {} {}
       [("content-type", "text/xml")] "content-type" "text/xml").1 rfl
     { headers := [("Content-Type", "text/xml")], wroteStatus := some 200,
       body := some (Json.obj [("data", Json.str defaultResponseBody)]) } rfl,
   (content_type_non_clobber (Reply.NewReplier []) {} {}
       [("content-type", "text/xml")] "content-type" "text/xml").2
     { headers := [("Content-Type", "application/json")], wroteStatus := some 200,
       body := some (Json.obj [("data", Json.str defaultResponseBody)]) } rfl⟩
